import Mathlib

/- Verification of the fantasy-football-matrix repository: a shallow Lean
embedding of the aggregator service (src/fantasy-football-api/api.py) and of
the matrix display client (src/matrix-portal/code.py), with theorems settling
the specification's claims about them.

Numeric Python values are modelled as exact reals on the aggregator side
(its win-probability formula applies a real power) and as exact rationals on
the client side (all client arithmetic is field arithmetic, so every value
stays rational and decidably comparable).  Python's built-in `round`
(banker's rounding: ties go to the even neighbour) is modelled explicitly. -/

namespace FantasyMatrix

/-! ## Python rounding

`round(x)` in Python rounds half to even and returns an integer;
`round(x, n)` keeps `n` decimal digits with the same tie rule.
`roundHalfEven x` is the integer `round(x)`; `round3`/`round1` model
`round(x, 3)`/`round(x, 1)`. -/

/-- Python's one-argument `round`: round half to even. -/
def roundHalfEven {α : Type*} [LinearOrderedField α] [FloorRing α] (x : α) : ℤ :=
  if Int.fract x < 1 / 2 then ⌊x⌋
  else if 1 / 2 < Int.fract x then ⌊x⌋ + 1
  else if Even ⌊x⌋ then ⌊x⌋ else ⌊x⌋ + 1

/-- Python `round(x, 3)`. -/
def round3 {α : Type*} [LinearOrderedField α] [FloorRing α] (x : α) : α :=
  (roundHalfEven (x * 1000) : α) / 1000

/-- Python `round(x, 1)`. -/
def round1 {α : Type*} [LinearOrderedField α] [FloorRing α] (x : α) : α :=
  (roundHalfEven (x * 10) : α) / 10

/-- Python `int(x)`: truncation toward zero. -/
def pyInt (x : ℚ) : ℤ := if 0 ≤ x then ⌊x⌋ else ⌈x⌉

/-! ## Aggregator service: src/fantasy-football-api/api.py

The pydantic response models (lines 22-41).  `MatrixData` has exactly the
fields `matchups`, `week`, `league_name`, `total_matchups`; in particular it
has no `projected_median` field. -/

structure TeamInMatchup where
  team_id : ℤ
  team_abbrev : String
  team_name : String
  current_score : ℝ
  projected_score : ℝ

structure MatchupData where
  matchup_index : ℕ
  home_team : TeamInMatchup
  away_team : TeamInMatchup
  home_win_probability : ℝ
  away_win_probability : ℝ
  is_complete : Bool

structure MatrixData where
  matchups : List MatchupData
  week : ℤ
  league_name : String
  total_matchups : ℕ

/-- api.py lines 68-97.  `pow(2.71828, -normalized_advantage)` is the literal
constant 2.71828 raised to a real power (modelled with `Real.rpow`), and the
two returned components are `round(_, 3)` of the sigmoid value and of its
complement. -/
noncomputable def calculate_win_probability
    (home_score away_score home_proj away_proj : ℝ) : ℝ × ℝ :=
  if home_proj + away_proj = 0 then (0.5, 0.5)
  else
    let score_diff := home_score - away_score
    let proj_diff := home_proj - away_proj
    let total_advantage := score_diff * 0.3 + proj_diff * 0.7
    let total_proj := home_proj + away_proj
    let home_prob :=
      if total_proj > 0 then
        1 / (1 + (2.71828 : ℝ) ^ (-(total_advantage / (total_proj * 0.1))))
      else (0.5 : ℝ)
    let away_prob := 1.0 - home_prob
    (round3 home_prob, round3 away_prob)

/-- The pre-rounding `home_prob` value computed on the positive-projection
branch of `calculate_win_probability` (api.py lines 78-91), written out as a
function of the four inputs.  `calculate_win_probability_pos_branch` below
proves it is exactly the intermediate the function rounds and returns. -/
noncomputable def home_prob_raw (home_score away_score home_proj away_proj : ℝ) : ℝ :=
  1 / (1 + (2.71828 : ℝ) ^
    (-(((home_score - away_score) * 0.3 + (home_proj - away_proj) * 0.7) /
      ((home_proj + away_proj) * 0.1))))

/-- One side of an upstream box score (espn_api team object): the attributes
api.py reads. -/
structure BoxTeam where
  team_id : ℤ
  team_abbrev : String
  team_name : String

/-- An upstream box score: the attributes api.py reads (lines 110-143). -/
structure BoxScore where
  home_team : BoxTeam
  away_team : BoxTeam
  home_score : ℝ
  away_score : ℝ
  home_projected : ℝ
  away_projected : ℝ
  is_playoff : Bool

/-- What the upstream provider hands to `get_league_data` once `get_league()`
and the `current_week`/`box_scores` calls succeed.  Attribute access on each
individual box score may itself raise (malformed upstream data), which the
`Except` wrapper on every list element models; any such error propagates to
the surrounding `try`. -/
structure LeagueData where
  current_week : ℤ
  league_name : String
  boxes : List (Except String BoxScore)

/-- The per-box transformation of api.py lines 110-144: scores and
projections are rounded to one decimal before being stored and fed to
`calculate_win_probability`. -/
noncomputable def buildMatchup (i : ℕ) (box : BoxScore) : MatchupData :=
  let home_score := round1 box.home_score
  let away_score := round1 box.away_score
  let home_proj := round1 box.home_projected
  let away_proj := round1 box.away_projected
  let probs := calculate_win_probability home_score away_score home_proj away_proj
  { matchup_index := i
    home_team :=
      { team_id := box.home_team.team_id
        team_abbrev := box.home_team.team_abbrev
        team_name := box.home_team.team_name
        current_score := home_score
        projected_score := home_proj }
    away_team :=
      { team_id := box.away_team.team_id
        team_abbrev := box.away_team.team_abbrev
        team_name := box.away_team.team_name
        current_score := away_score
        projected_score := away_proj }
    home_win_probability := probs.1
    away_win_probability := probs.2
    is_complete := box.is_playoff }

/-- The `for i, box in enumerate(box_scores)` loop of api.py lines 110-145:
boxes are processed in order and the first raising box aborts the whole
request (the partially built local list is discarded). -/
noncomputable def processBoxes (i : ℕ) :
    List (Except String BoxScore) → Except String (List MatchupData)
  | [] => Except.ok []
  | Except.error e :: _ => Except.error e
  | Except.ok box :: rest =>
    match processBoxes (i + 1) rest with
    | Except.error e => Except.error e
    | Except.ok ms => Except.ok (buildMatchup i box :: ms)

/-- api.py lines 99-155, `GET /league/data`.  The upstream interaction is the
`Except String LeagueData` argument; any exception inside the `try` becomes
`HTTPException(status_code=500, detail="Error fetching league data: " + str(e))`,
which FastAPI serializes as a 500 response with body `{"detail": <string>}` —
modelled as `Except.error (500, detail)`. -/
noncomputable def get_league_data (upstream : Except String LeagueData) :
    Except (ℕ × String) MatrixData :=
  match upstream with
  | Except.error e => Except.error (500, "Error fetching league data: " ++ e)
  | Except.ok ld =>
    match processBoxes 0 ld.boxes with
    | Except.error e => Except.error (500, "Error fetching league data: " ++ e)
    | Except.ok ms =>
      Except.ok
        { matchups := ms
          week := ld.current_week
          league_name := ld.league_name
          total_matchups := ms.length }

/-! ## Display client: src/matrix-portal/code.py

The client consumes the aggregator's JSON.  The structures below carry
exactly the fields the client reads; all numbers are rationals. -/

structure ClientTeam where
  team_abbrev : String
  current_score : ℚ
deriving DecidableEq, Repr

structure ClientMatchup where
  matchup_index : ℕ
  home_team : ClientTeam
  away_team : ClientTeam
  home_win_probability : ℚ
deriving DecidableEq, Repr

/-- A parsed 200-response body as `fetch_matchups` reads it: `data["matchups"]`
(raises `KeyError` when absent, modelled by `none`), `data["week"]` (same),
and `data.get("projected_median", 0.0)`. -/
structure Body where
  matchups : Option (List ClientMatchup)
  week : Option ℤ
  projected_median : Option ℚ
deriving DecidableEq, Repr

/-- An HTTP response as the client sees it: a status code and, when
`response.json()` succeeds, a parsed body (`none` models a parse error). -/
structure Response where
  status : ℕ
  body : Option Body
deriving DecidableEq, Repr

/-- The mutable fields of `FantasyMatrixDisplay` (code.py lines 77-80). -/
structure ClientState where
  matchups : List ClientMatchup
  current_matchup_index : ℕ
  last_api_call : ℚ
  projected_median : ℚ
deriving DecidableEq, Repr

/-- code.py line 28. -/
def REFRESH_INTERVAL : ℚ := 30

/-- `__init__` (code.py lines 77-80): empty cache, index 0, `last_api_call = 0`,
`projected_median = 0.0`. -/
def init_client : ClientState :=
  { matchups := [], current_matchup_index := 0, last_api_call := 0, projected_median := 0 }

/-- code.py lines 102-132, `fetch_matchups`.  The argument is the outcome of
`requests.get`: `none` when the request itself raises (network error,
timeout), otherwise a status code and an optional parsed body.  Control flow
is modelled statement by statement: on a 200 status, `self.matchups` and then
`self.projected_median` are assigned, and only afterwards does the success
log line read `data["week"]` — so a body that has `matchups` but no `week`
raises `KeyError` after the cache was already mutated, and the `except` arm
returns `False`.  `last_api_call` is never touched here (the caller updates
it).  Returns the new state and the function's boolean result. -/
def fetch_matchups (s : ClientState) (resp : Option Response) : ClientState × Bool :=
  match resp with
  | none => (s, false)
  | some r =>
    if r.status = 200 then
      match r.body with
      | none => (s, false)
      | some b =>
        match b.matchups with
        | none => (s, false)
        | some ms =>
          let s1 := { s with matchups := ms, projected_median := b.projected_median.getD 0 }
          match b.week with
          | none => (s1, false)
          | some _ => (s1, true)
    else (s, false)

/-- The response-body shape that triggers the one cache-mutating failure of
`fetch_matchups`: a 200 status whose parsed body contains `matchups` but
lacks `week`. -/
def week_missing_shape (resp : Option Response) : Bool :=
  match resp with
  | some r =>
    r.status == 200 &&
      (match r.body with
       | some b => b.matchups.isSome && b.week.isNone
       | none => false)
  | none => false

/-- The body of a serialized aggregator response, as the client parses it:
the `MatrixData` model has fields `matchups`, `week`, `league_name`,
`total_matchups` and no `projected_median`, so `projected_median` is never
present. -/
def aggregator_body (ms : List ClientMatchup) (wk : ℤ) : Body :=
  { matchups := some ms, week := some wk, projected_median := none }

/-- Geometry of the two probability-bar rectangles appended by
`create_matchup_display` (code.py lines 198-211): x offset and width of the
home segment and of the away segment. -/
structure BarLayout where
  home_x : ℤ
  home_width : ℤ
  away_x : ℤ
  away_width : ℤ
deriving DecidableEq, Repr

/-- The probability-bar portion of `create_matchup_display` (code.py lines
138, 155-211): `home_prob = round(p * 100)`, `bar_width = 64`,
`home_bar_width = int((home_prob / 100) * bar_width)`, then a home `Rect` at
x=0 of that width followed by an away `Rect` at x=`home_bar_width` of width
`bar_width - home_bar_width`. -/
def matchup_bar_layout (m : ClientMatchup) : BarLayout :=
  { home_x := 0
    home_width := pyInt ((roundHalfEven (m.home_win_probability * 100) : ℚ) / 100 * 64)
    away_x := pyInt ((roundHalfEven (m.home_win_probability * 100) : ℚ) / 100 * 64)
    away_width := 64 - pyInt ((roundHalfEven (m.home_win_probability * 100) : ℚ) / 100 * 64) }

/-- The score-collection loop of `create_summary_display` (code.py lines
221-227): home then away score of each cached matchup, in list order. -/
def all_scores : List ClientMatchup → List ℚ
  | [] => []
  | m :: rest => m.home_team.current_score :: m.away_team.current_score :: all_scores rest

/-- The median computation of `create_summary_display` (code.py lines
230-232): `sorted_scores[n // 2] if n % 2 else
(sorted_scores[n // 2 - 1] + sorted_scores[n // 2]) / 2`.  Out-of-range
indexing (only possible on the empty list, where Python would raise) is
modelled with a default of 0. -/
def median_of_scores (scores : List ℚ) : ℚ :=
  let sorted_scores := List.insertionSort (· ≤ ·) scores
  let n := sorted_scores.length
  if n % 2 = 1 then sorted_scores.getD (n / 2) 0
  else (sorted_scores.getD (n / 2 - 1) 0 + sorted_scores.getD (n / 2) 0) / 2

/-- The live median shown by the summary screen: the code's median formula
applied to all cached teams' current scores. -/
def summary_live_median (matchups : List ClientMatchup) : ℚ :=
  median_of_scores (all_scores matchups)

/-- Median as the specification words it: after ascending sort, the single
middle value when the count is odd, the average of the two middle values when
it is even.  (Specification-side definition, compared with the code's
`median_of_scores`.) -/
def spec_median (scores : List ℚ) : ℚ :=
  let s := List.insertionSort (· ≤ ·) scores
  let n := s.length
  if n % 2 = 1 then s.getD ((n - 1) / 2) 0
  else (s.getD ((n - 1) / 2) 0 + s.getD (n / 2) 0) / 2

/-- The PROJ value rendered by `create_summary_display` (code.py lines
263-277): it displays `self.projected_median`. -/
def summary_proj_value (s : ClientState) : ℚ := s.projected_median

/-! ### Render state machine (code.py lines 296-319)

One loop iteration displays either matchup `i` (when
`current_matchup_index = i < len(matchups)`) or the summary screen (when the
index has run past the end), sleeps for the dwell time, and updates the
index.  `stepIndex` is the index update; `shownState` interprets an index as
the display state it renders. -/

inductive DispState where
  | showingMatchup (i : ℕ)
  | showingSummary
deriving DecidableEq, Repr

/-- Index update of one dwell-expiry transition: the summary iteration resets
the index to 0 (line 303), a matchup iteration increments it (line 316). -/
def stepIndex (count i : ℕ) : ℕ := if count ≤ i then 0 else i + 1

/-- The display state rendered for a given index (line 300's comparison). -/
def shownState (count i : ℕ) : DispState :=
  if count ≤ i then DispState.showingSummary else DispState.showingMatchup i

/-- Index after `n` dwell-expiry transitions, starting from index 0. -/
def idxAfter (count n : ℕ) : ℕ := (stepIndex count)^[n] 0

/-- Display state after `n` dwell-expiry transitions from `SHOWING_MATCHUP(0)`. -/
def stateAfter (count n : ℕ) : DispState := shownState count (idxAfter count n)

/-- Whether the `n`-th dwell-expiry transition performs the refresh-eligibility
check: the check (code.py lines 306-310) runs exactly in the summary
iteration, i.e. when the transition leaves the summary state. -/
def refreshCheckAtTransition (count n : ℕ) : Bool :=
  decide (count ≤ idxAfter count (n - 1))

/-- One iteration of the `run` loop (code.py lines 296-319), given the
monotonic time `now` sampled at line 306 and the outcome `resp` of any
`requests.get` performed in this iteration.  In the summary iteration the
code resets `current_matchup_index` to 0 (line 303) before the time check;
since the reset leaves `last_api_call` untouched, the check compares `now`
against the pre-iteration `last_api_call`.  Returns the new state, whether a
re-fetch was issued, and whether that fetch succeeded. -/
def runStep (s : ClientState) (now : ℚ) (resp : Option Response) :
    ClientState × Bool × Bool :=
  if s.matchups.isEmpty then (s, false, false)
  else if s.matchups.length ≤ s.current_matchup_index then
    if REFRESH_INTERVAL < now - s.last_api_call then
      match fetch_matchups { s with current_matchup_index := 0 } resp with
      | (s2, true) => ({ s2 with last_api_call := now }, true, true)
      | (s2, false) => (s2, true, false)
    else ({ s with current_matchup_index := 0 }, false, false)
  else ({ s with current_matchup_index := s.current_matchup_index + 1 }, false, false)

/-- `runStep` instrumented with a ghost timestamp recording when the most
recent successful fetch happened (the state itself does not store this: the
startup fetch never writes `last_api_call`).  The ghost is updated to `now`
exactly when this iteration's fetch succeeds. -/
def runStepT (st : ClientState × ℚ) (now : ℚ) (resp : Option Response) :
    (ClientState × ℚ) × Bool :=
  let r := runStep st.1 now resp
  ((r.1, if r.2.2 then now else st.2), r.2.1)

/-! ### Concrete data used by counterexamples and witnesses -/

def mA : ClientMatchup := ⟨0, ⟨"AAAA", 50⟩, ⟨"BBBB", 40⟩, 629 / 1000⟩

def mB : ClientMatchup := ⟨1, ⟨"CCCC", 10⟩, ⟨"DDDD", 20⟩, 2 / 5⟩

/-- A matchup whose home win probability is 0.51. -/
def m51 : ClientMatchup := ⟨0, ⟨"HOME", 50⟩, ⟨"AWAY", 40⟩, 51 / 100⟩

/-- A successful aggregator response carrying one matchup for week 5. -/
def agg_resp : Response := ⟨200, some (aggregator_body [mA] 5)⟩

/-- Upstream league data whose single box score raises on attribute access. -/
def bad_league : LeagueData :=
  { current_week := 3, league_name := "Test League", boxes := [Except.error "boom"] }

/-! ## Rounding lemmas -/

section RoundingLemmas

variable {α : Type*} [LinearOrderedField α] [FloorRing α]

theorem roundHalfEven_intCast (m : ℤ) : roundHalfEven (m : α) = m := by
  unfold roundHalfEven
  rw [Int.fract_intCast, Int.floor_intCast, if_pos (by norm_num : (0 : α) < 1 / 2)]

theorem roundHalfEven_eq_floor_or_succ (x : α) :
    roundHalfEven x = ⌊x⌋ ∨ roundHalfEven x = ⌊x⌋ + 1 := by
  unfold roundHalfEven
  by_cases h1 : Int.fract x < 1 / 2
  · rw [if_pos h1]
    exact Or.inl rfl
  · rw [if_neg h1]
    by_cases h2 : 1 / 2 < Int.fract x
    · rw [if_pos h2]
      exact Or.inr rfl
    · rw [if_neg h2]
      by_cases h3 : Even ⌊x⌋
      · rw [if_pos h3]
        exact Or.inl rfl
      · rw [if_neg h3]
        exact Or.inr rfl

theorem roundHalfEven_nonneg {x : α} (hx : 0 ≤ x) : 0 ≤ roundHalfEven x := by
  have hfl : 0 ≤ ⌊x⌋ := Int.floor_nonneg.2 hx
  rcases roundHalfEven_eq_floor_or_succ x with h | h <;> rw [h] <;> omega

theorem roundHalfEven_le_intCast {x : α} {n : ℤ} (hx : x ≤ (n : α)) :
    roundHalfEven x ≤ n := by
  have hfl : ⌊x⌋ ≤ n := by
    have h := Int.floor_mono hx
    rwa [Int.floor_intCast] at h
  rcases eq_or_lt_of_le hfl with heq | hlt
  · have hxn : x = (n : α) := by
      refine le_antisymm hx ?_
      calc (n : α) = ((⌊x⌋ : ℤ) : α) := by exact_mod_cast heq.symm
        _ ≤ x := Int.floor_le x
    rw [hxn, roundHalfEven_intCast]
  · rcases roundHalfEven_eq_floor_or_succ x with h | h <;> rw [h] <;> omega

theorem roundHalfEven_eq_of_between {m : ℤ} {x : α}
    (h1 : (m : α) - 1 / 2 < x) (h2 : x < (m : α) + 1 / 2) :
    roundHalfEven x = m := by
  have hfract : Int.fract x = x - ((⌊x⌋ : ℤ) : α) := (Int.self_sub_floor x).symm
  rcases le_or_lt (m : α) x with hle | hlt
  · have hfl : ⌊x⌋ = m := Int.floor_eq_iff.2 ⟨hle, by linarith⟩
    have hfr : Int.fract x < 1 / 2 := by
      rw [hfract, hfl]; linarith
    unfold roundHalfEven
    rw [if_pos hfr, hfl]
  · have hfl : ⌊x⌋ = m - 1 := Int.floor_eq_iff.2 ⟨by push_cast; linarith, by push_cast; linarith⟩
    have hfr : 1 / 2 < Int.fract x := by
      rw [hfract, hfl]
      push_cast
      linarith
    unfold roundHalfEven
    rw [if_neg (by linarith), if_pos hfr, hfl]
    omega

theorem even_reflect_aux {n k : ℤ} (hn : Even n) : Even (n - k - 1) ↔ ¬Even k := by
  rw [Int.even_iff] at hn ⊢
  rw [Int.even_iff]
  omega

theorem roundHalfEven_add_reflect {n : ℤ} (hn : Even n) (x : α) :
    roundHalfEven x + roundHalfEven ((n : α) - x) = n := by
  by_cases hf : Int.fract x = 0
  · have hm : x = ((⌊x⌋ : ℤ) : α) := by
      have h := Int.self_sub_fract x
      rw [hf, sub_zero] at h
      exact h
    rw [hm, ← Int.cast_sub, roundHalfEven_intCast, roundHalfEven_intCast]
    omega
  · have h0 : 0 < Int.fract x := lt_of_le_of_ne (Int.fract_nonneg x) (Ne.symm hf)
    have h1 : Int.fract x < 1 := Int.fract_lt_one x
    have hfr : Int.fract ((n : α) - x) = 1 - Int.fract x := by
      rw [sub_eq_add_neg, Int.fract_int_add, Int.fract_neg hf]
    have hflr : ⌊(n : α) - x⌋ = n - ⌊x⌋ - 1 := by
      have h2 : ((⌊(n : α) - x⌋ : ℤ) : α) = ((n : α) - x) - Int.fract ((n : α) - x) :=
        Int.self_sub_fract _ |>.symm
      have h3 : ((⌊x⌋ : ℤ) : α) = x - Int.fract x := Int.self_sub_fract x |>.symm
      have h4 : ((⌊(n : α) - x⌋ : ℤ) : α) = ((n - ⌊x⌋ - 1 : ℤ) : α) := by
        rw [h2, hfr]
        push_cast
        rw [h3]
        ring
      exact_mod_cast h4
    rcases lt_trichotomy (Int.fract x) (1 / 2) with hlt | heq | hgt
    · have hx : roundHalfEven x = ⌊x⌋ := by
        unfold roundHalfEven
        rw [if_pos hlt]
      have hy : roundHalfEven ((n : α) - x) = ⌊(n : α) - x⌋ + 1 := by
        unfold roundHalfEven
        rw [if_neg (by rw [hfr]; push_neg; linarith), if_pos (by rw [hfr]; linarith)]
      rw [hx, hy, hflr]
      omega
    · have hyf : Int.fract ((n : α) - x) = 1 / 2 := by rw [hfr, heq]; norm_num
      by_cases hev : Even ⌊x⌋
      · have hx : roundHalfEven x = ⌊x⌋ := by
          unfold roundHalfEven
          rw [if_neg (by rw [heq]; exact lt_irrefl _), if_neg (by rw [heq]; exact lt_irrefl _),
            if_pos hev]
        have hodd : ¬Even (n - ⌊x⌋ - 1) := by
          rw [even_reflect_aux hn]
          exact not_not_intro hev
        have hy : roundHalfEven ((n : α) - x) = ⌊(n : α) - x⌋ + 1 := by
          unfold roundHalfEven
          rw [if_neg (by rw [hyf]; exact lt_irrefl _), if_neg (by rw [hyf]; exact lt_irrefl _),
            if_neg (by rw [hflr]; exact hodd)]
        rw [hx, hy, hflr]
        omega
      · have hx : roundHalfEven x = ⌊x⌋ + 1 := by
          unfold roundHalfEven
          rw [if_neg (by rw [heq]; exact lt_irrefl _), if_neg (by rw [heq]; exact lt_irrefl _),
            if_neg hev]
        have heven2 : Even (n - ⌊x⌋ - 1) := (even_reflect_aux hn).2 hev
        have hy : roundHalfEven ((n : α) - x) = ⌊(n : α) - x⌋ := by
          unfold roundHalfEven
          rw [if_neg (by rw [hyf]; exact lt_irrefl _), if_neg (by rw [hyf]; exact lt_irrefl _),
            if_pos (by rw [hflr]; exact heven2)]
        rw [hx, hy, hflr]
        omega
    · have hx : roundHalfEven x = ⌊x⌋ + 1 := by
        unfold roundHalfEven
        rw [if_neg (by push_neg; linarith), if_pos hgt]
      have hy : roundHalfEven ((n : α) - x) = ⌊(n : α) - x⌋ := by
        unfold roundHalfEven
        rw [if_pos (by rw [hfr]; linarith)]
      rw [hx, hy, hflr]
      omega

theorem round3_is_thousandth (x : α) : ∃ k : ℤ, round3 x = (k : α) / 1000 :=
  ⟨roundHalfEven (x * 1000), rfl⟩

theorem round3_nonneg {x : α} (hx : 0 ≤ x) : 0 ≤ round3 x := by
  unfold round3
  have h : (0 : ℤ) ≤ roundHalfEven (x * 1000) := roundHalfEven_nonneg (by nlinarith)
  have h2 : (0 : α) ≤ (roundHalfEven (x * 1000) : α) := by exact_mod_cast h
  positivity

theorem round3_le_one {x : α} (hx : x ≤ 1) : round3 x ≤ 1 := by
  unfold round3
  rw [div_le_one (by norm_num)]
  have h : roundHalfEven (x * 1000) ≤ (1000 : ℤ) :=
    roundHalfEven_le_intCast (by push_cast; nlinarith)
  exact_mod_cast h

theorem round3_reflection (p : α) : round3 p + round3 (1 - p) = 1 := by
  unfold round3
  have harg : (1 - p) * 1000 = ((1000 : ℤ) : α) - p * 1000 := by push_cast; ring
  rw [harg]
  have h := roundHalfEven_add_reflect (n := 1000) (by decide) (p * 1000)
  have h2 : ((roundHalfEven (p * 1000) : ℤ) : α) +
      ((roundHalfEven (((1000 : ℤ) : α) - p * 1000) : ℤ) : α) = ((1000 : ℤ) : α) := by
    exact_mod_cast congrArg (fun z : ℤ => (z : α)) h
  push_cast at h2 ⊢
  field_simp
  linarith

end RoundingLemmas

/-! ## Win-probability estimator lemmas -/

theorem twoPointSeven_pos : (0 : ℝ) < 2.71828 := by norm_num

/-- On the positive total-projection branch, `calculate_win_probability`
returns the rounded `home_prob_raw` value and the rounded complement. -/
theorem calculate_win_probability_pos_branch {hs as hp ap : ℝ} (h : 0 < hp + ap) :
    calculate_win_probability hs as hp ap =
      (round3 (home_prob_raw hs as hp ap), round3 (1 - home_prob_raw hs as hp ap)) := by
  unfold calculate_win_probability home_prob_raw
  rw [if_neg (ne_of_gt h)]
  simp only []
  rw [if_pos h]
  norm_num

theorem home_prob_raw_pos (hs as hp ap : ℝ) : 0 < home_prob_raw hs as hp ap := by
  unfold home_prob_raw
  have hE : (0 : ℝ) < (2.71828 : ℝ) ^
      (-(((hs - as) * 0.3 + (hp - ap) * 0.7) / ((hp + ap) * 0.1))) :=
    Real.rpow_pos_of_pos twoPointSeven_pos _
  positivity

theorem home_prob_raw_lt_one (hs as hp ap : ℝ) : home_prob_raw hs as hp ap < 1 := by
  unfold home_prob_raw
  have hE : (0 : ℝ) < (2.71828 : ℝ) ^
      (-(((hs - as) * 0.3 + (hp - ap) * 0.7) / ((hp + ap) * 0.1))) :=
    Real.rpow_pos_of_pos twoPointSeven_pos _
  rw [div_lt_one (by linarith)]
  linarith

/-- C1: for non-negative scores and projections, `calculate_win_probability`
returns a pair of thousandths with the first component in [0, 1], the second
the exact complement of the first, and the two summing to exactly 1. -/
theorem win_probability_pair_valid (hs as hp ap : ℝ)
    (h1 : 0 ≤ hs) (h2 : 0 ≤ as) (h3 : 0 ≤ hp) (h4 : 0 ≤ ap) :
    (∃ kp : ℤ, (calculate_win_probability hs as hp ap).1 = (kp : ℝ) / 1000) ∧
    (∃ kq : ℤ, (calculate_win_probability hs as hp ap).2 = (kq : ℝ) / 1000) ∧
    0 ≤ (calculate_win_probability hs as hp ap).1 ∧
    (calculate_win_probability hs as hp ap).1 ≤ 1 ∧
    (calculate_win_probability hs as hp ap).2 = 1 - (calculate_win_probability hs as hp ap).1 ∧
    (calculate_win_probability hs as hp ap).1 + (calculate_win_probability hs as hp ap).2 = 1 := by
  by_cases h0 : hp + ap = 0
  · unfold calculate_win_probability
    rw [if_pos h0]
    exact ⟨⟨500, by norm_num⟩, ⟨500, by norm_num⟩, by norm_num, by norm_num, by norm_num,
      by norm_num⟩
  · have hpos : 0 < hp + ap := lt_of_le_of_ne (add_nonneg h3 h4) (Ne.symm h0)
    rw [calculate_win_probability_pos_branch hpos]
    have hP0 : 0 < home_prob_raw hs as hp ap := home_prob_raw_pos hs as hp ap
    have hP1 : home_prob_raw hs as hp ap < 1 := home_prob_raw_lt_one hs as hp ap
    have hrefl := round3_reflection (home_prob_raw hs as hp ap)
    exact ⟨round3_is_thousandth _, round3_is_thousandth _, round3_nonneg (le_of_lt hP0),
      round3_le_one (le_of_lt hP1), by linarith, hrefl⟩

/-- Witness for C1 at the all-zero input. -/
theorem win_probability_pair_valid_witness :
    (0 : ℝ) ≤ 0 ∧
    ((∃ kp : ℤ, (calculate_win_probability 0 0 0 0).1 = (kp : ℝ) / 1000) ∧
     (∃ kq : ℤ, (calculate_win_probability 0 0 0 0).2 = (kq : ℝ) / 1000) ∧
     0 ≤ (calculate_win_probability 0 0 0 0).1 ∧
     (calculate_win_probability 0 0 0 0).1 ≤ 1 ∧
     (calculate_win_probability 0 0 0 0).2 = 1 - (calculate_win_probability 0 0 0 0).1 ∧
     (calculate_win_probability 0 0 0 0).1 + (calculate_win_probability 0 0 0 0).2 = 1) :=
  ⟨le_refl 0,
    win_probability_pair_valid 0 0 0 0 (le_refl 0) (le_refl 0) (le_refl 0) (le_refl 0)⟩

/-- C2: whenever the projections sum to zero, the estimator returns exactly
(0.5, 0.5), regardless of the (non-negative) current scores. -/
theorem zero_projection_returns_half (hs as hp ap : ℝ)
    (h1 : 0 ≤ hs) (h2 : 0 ≤ as) (h0 : hp + ap = 0) :
    calculate_win_probability hs as hp ap = (0.5, 0.5) := by
  unfold calculate_win_probability
  rw [if_pos h0]

/-- Witness for C2 with non-zero current scores. -/
theorem zero_projection_returns_half_witness :
    (0 : ℝ) ≤ 25 ∧ (0 : ℝ) ≤ 75 ∧ (0 : ℝ) + 0 = 0 ∧
    calculate_win_probability 25 75 0 0 = (0.5, 0.5) :=
  ⟨by norm_num, by norm_num, by norm_num,
    zero_projection_returns_half 25 75 0 0 (by norm_num) (by norm_num) (by norm_num)⟩

/-! ## The worked example (50, 40, 100, 90)

At this input the normalized advantage is exactly 10/19, so the code computes
`1 / (1 + 2.71828 ^
(-10/19))`.  Rational bracketing of `2.71828 ^ (10/19)`
via its 19th power pins the rounded outputs down to (0.629, 0.371). -/

theorem epow_pow19 :
    ((2.71828 : ℝ) ^ ((10 : ℝ) / 19)) ^ (19 : ℕ) = (2.71828 : ℝ) ^ (10 : ℕ) := by
  rw [← Real.rpow_natCast ((2.71828 : ℝ) ^ ((10 : ℝ) / 19)) 19,
    ← Real.rpow_mul (le_of_lt twoPointSeven_pos)]
  have h : ((10 : ℝ) / 19) * ((19 : ℕ) : ℝ) = ((10 : ℕ) : ℝ) := by push_cast; norm_num
  rw [h, Real.rpow_natCast]

theorem epow_lb : (1.692 : ℝ) < (2.71828 : ℝ) ^ ((10 : ℝ) / 19) := by
  have hE : (0 : ℝ) ≤ (2.71828 : ℝ) ^ ((10 : ℝ) / 19) :=
    Real.rpow_nonneg (le_of_lt twoPointSeven_pos) _
  have h : (1.692 : ℝ) ^ (19 : ℕ) < ((2.71828 : ℝ) ^ ((10 : ℝ) / 19)) ^ (19 : ℕ) := by
    rw [epow_pow19]
    norm_num
  exact lt_of_pow_lt_pow_left₀ 19 hE h

theorem epow_ub : (2.71828 : ℝ) ^ ((10 : ℝ) / 19) < 1.6935 := by
  have h : ((2.71828 : ℝ) ^ ((10 : ℝ) / 19)) ^ (19 : ℕ) < (1.6935 : ℝ) ^ (19 : ℕ) := by
    rw [epow_pow19]
    norm_num
  exact lt_of_pow_lt_pow_left₀ 19 (by norm_num) h

theorem home_prob_raw_example :
    home_prob_raw 50 40 100 90 = 1 / (1 + ((2.71828 : ℝ) ^ ((10 : ℝ) / 19))⁻¹) := by
  unfold home_prob_raw
  have harg : -((((50 : ℝ) - 40) * 0.3 + ((100 : ℝ) - 90) * 0.7) /
      (((100 : ℝ) + 90) * 0.1)) = -((10 : ℝ) / 19) := by norm_num
  rw [harg, Real.rpow_neg (le_of_lt twoPointSeven_pos)]

theorem example_prob_bounds :
    (628.5 : ℝ) < (1 / (1 + ((2.71828 : ℝ) ^ ((10 : ℝ) / 19))⁻¹)) * 1000 ∧
    (1 / (1 + ((2.71828 : ℝ) ^ ((10 : ℝ) / 19))⁻¹)) * 1000 < 629.5 := by
  have ht0 : (0 : ℝ) < (2.71828 : ℝ) ^ ((10 : ℝ) / 19) :=
    Real.rpow_pos_of_pos twoPointSeven_pos _
  have hti_ub : ((2.71828 : ℝ) ^ ((10 : ℝ) / 19))⁻¹ < (1.692 : ℝ)⁻¹ :=
    inv_strictAnti₀ (by norm_num) epow_lb
  have hti_lb : (1.6935 : ℝ)⁻¹ < ((2.71828 : ℝ) ^ ((10 : ℝ) / 19))⁻¹ :=
    inv_strictAnti₀ ht0 epow_ub
  have hd_pos : (0 : ℝ) < 1 + ((2.71828 : ℝ) ^ ((10 : ℝ) / 19))⁻¹ := by positivity
  have hP_lb : 1 / (1 + (1.692 : ℝ)⁻¹) <
      1 / (1 + ((2.71828 : ℝ) ^ ((10 : ℝ) / 19))⁻¹) :=
    one_div_lt_one_div_of_lt hd_pos (by linarith)
  have hP_ub : 1 / (1 + ((2.71828 : ℝ) ^ ((10 : ℝ) / 19))⁻¹) <
      1 / (1 + (1.6935 : ℝ)⁻¹) :=
    one_div_lt_one_div_of_lt (by norm_num) (by linarith)
  have hlb0 : (628.5 : ℝ) < (1 / (1 + (1.692 : ℝ)⁻¹)) * 1000 := by norm_num
  have hub0 : (1 / (1 + (1.6935 : ℝ)⁻¹)) * 1000 < (629.5 : ℝ) := by norm_num
  constructor
  · nlinarith
  · nlinarith

/-- Rounding the worked example: `calculate_win_probability 50 40 100 90`
evaluates to exactly (0.629, 0.371). -/
theorem calculate_win_probability_example :
    calculate_win_probability 50 40 100 90 = (0.629, 0.371) := by
  rw [calculate_win_probability_pos_branch (by norm_num : (0 : ℝ) < 100 + 90),
    home_prob_raw_example]
  obtain ⟨hlb, hub⟩ := example_prob_bounds
  have h629 : roundHalfEven ((1 / (1 + ((2.71828 : ℝ) ^ ((10 : ℝ) / 19))⁻¹)) * 1000) =
      (629 : ℤ) := by
    refine roundHalfEven_eq_of_between ?_ ?_ <;> push_cast <;> linarith
  have h371 : roundHalfEven ((1 - 1 / (1 + ((2.71828 : ℝ) ^ ((10 : ℝ) / 19))⁻¹)) * 1000) =
      (371 : ℤ) := by
    refine roundHalfEven_eq_of_between ?_ ?_ <;> push_cast <;> nlinarith
  unfold round3
  rw [h629, h371]
  norm_num

/-- C3 counterexample: at the claim's own example input the intermediate
`home_prob` the code computes is not `1 / (1 + e^-scaled)` for `e` the base
of the natural logarithm — the code exponentiates the literal 2.71828, and
`2.71828 ^ (10/19) ≠ exp (10/19)`. -/
theorem sigmoid_base_not_natural_e :
    home_prob_raw 50 40 100 90 ≠
      1 / (1 + Real.exp (-((((50 : ℝ) - 40) * 0.3 + ((100 : ℝ) - 90) * 0.7) /
        (((100 : ℝ) + 90) * 0.1)))) := by
  rw [home_prob_raw_example]
  have harg : -((((50 : ℝ) - 40) * 0.3 + ((100 : ℝ) - 90) * 0.7) /
      (((100 : ℝ) + 90) * 0.1)) = -((10 : ℝ) / 19) := by norm_num
  rw [harg, Real.exp_neg]
  intro heq
  have ht0 : (0 : ℝ) < (2.71828 : ℝ) ^ ((10 : ℝ) / 19) :=
    Real.rpow_pos_of_pos twoPointSeven_pos _
  have hu0 : (0 : ℝ) < Real.exp ((10 : ℝ) / 19) := Real.exp_pos _
  have hdt : (0 : ℝ) < 1 + ((2.71828 : ℝ) ^ ((10 : ℝ) / 19))⁻¹ := by positivity
  have hdu : (0 : ℝ) < 1 + (Real.exp ((10 : ℝ) / 19))⁻¹ := by positivity
  have hteq : (2.71828 : ℝ) ^ ((10 : ℝ) / 19) = Real.exp ((10 : ℝ) / 19) := by
    field_simp at heq
    linear_combination heq
  have hpow : ((2.71828 : ℝ) ^ ((10 : ℝ) / 19)) ^ (19 : ℕ) =
      (Real.exp ((10 : ℝ) / 19)) ^ (19 : ℕ) := by rw [hteq]
  rw [epow_pow19] at hpow
  have hexp19 : (Real.exp ((10 : ℝ) / 19)) ^ (19 : ℕ) = Real.exp 10 := by
    rw [← Real.exp_nat_mul]
    norm_num
  have hexp10 : Real.exp 10 = (Real.exp 1) ^ (10 : ℕ) := by
    rw [← Real.exp_nat_mul]
    norm_num
  rw [hexp19, hexp10] at hpow
  have hlt : (2.71828 : ℝ) ^ (10 : ℕ) < (Real.exp 1) ^ (10 : ℕ) := by
    refine pow_lt_pow_left₀ ?_ (by norm_num) (by norm_num)
    calc (2.71828 : ℝ) < 2.7182818283 := by norm_num
      _ < Real.exp 1 := Real.exp_one_gt_d9
  rw [hpow] at hlt
  exact lt_irrefl _ hlt

/-- C3 (amended): on every input with positive total projection,
`calculate_win_probability` rounds to three decimals the value
`1 / (1 + 2.71828 ^ -scaled)` — the logistic transform with the code's
approximation 2.71828 in place of the base of the natural logarithm — and its
complement, where `scaled = (0.3*(home_score - away_score) +
0.7*(home_proj - away_proj)) / ((home_proj + away_proj) * 0.1)`; at the
worked example (50, 40, 100, 90) the result is exactly (0.629, 0.371). -/
theorem win_probability_formula_and_example :
    (∀ hs as hp ap : ℝ, 0 < hp + ap →
      calculate_win_probability hs as hp ap =
        (round3 (1 / (1 + (2.71828 : ℝ) ^
          (-(((hs - as) * 0.3 + (hp - ap) * 0.7) / ((hp + ap) * 0.1))))),
         round3 (1 - 1 / (1 + (2.71828 : ℝ) ^
          (-(((hs - as) * 0.3 + (hp - ap) * 0.7) / ((hp + ap) * 0.1))))))) ∧
    calculate_win_probability 50 40 100 90 = (0.629, 0.371) :=
  ⟨fun hs as hp ap h => calculate_win_probability_pos_branch h,
    calculate_win_probability_example⟩

/-- Witness for C3: the formula clause applied at the worked example, with
its positivity hypothesis discharged there. -/
theorem win_probability_formula_and_example_witness :
    (0 : ℝ) < 100 + 90 ∧
    calculate_win_probability 50 40 100 90 =
      (round3 (1 / (1 + (2.71828 : ℝ) ^
        (-((((50 : ℝ) - 40) * 0.3 + ((100 : ℝ) - 90) * 0.7) /
          (((100 : ℝ) + 90) * 0.1))))),
       round3 (1 - 1 / (1 + (2.71828 : ℝ) ^
        (-((((50 : ℝ) - 40) * 0.3 + ((100 : ℝ) - 90) * 0.7) /
          (((100 : ℝ) + 90) * 0.1)))))) :=
  ⟨by norm_num,
    win_probability_formula_and_example.1 50 40 100 90 (by norm_num)⟩

/-! ## Aggregator endpoint error handling -/

theorem processBoxes_ok_length (bs : List (Except String BoxScore)) :
    ∀ (i : ℕ) (ms : List MatchupData),
      processBoxes i bs = Except.ok ms → ms.length = bs.length := by
  induction bs with
  | nil =>
    intro i ms h
    unfold processBoxes at h
    injection h with h
    subst h
    rfl
  | cons head tail ih =>
    intro i ms h
    cases head with
    | error e =>
      unfold processBoxes at h
      cases h
    | ok box =>
      unfold processBoxes at h
      cases hrec : processBoxes (i + 1) tail with
      | error e =>
        rw [hrec] at h
        cases h
      | ok tailms =>
        rw [hrec] at h
        injection h with h
        subst h
        simp [List.length_cons, ih (i + 1) tailms hrec]

/-- C6: any upstream failure — whether reaching the provider at all, or a
raising box score midway through the transformation loop — makes
`GET /league/data` respond with status 500 and a human-readable `detail`
string, and a successful response always carries one matchup per upstream
box score (never a partial list), with `total_matchups` equal to the list
length. -/
theorem league_data_error_responses :
    (∀ e : String,
      get_league_data (Except.error e) =
        Except.error (500, "Error fetching league data: " ++ e)) ∧
    (∀ (ld : LeagueData) (e : String), processBoxes 0 ld.boxes = Except.error e →
      get_league_data (Except.ok ld) =
        Except.error (500, "Error fetching league data: " ++ e)) ∧
    (∀ (up : Except String LeagueData) (md : MatrixData),
      get_league_data up = Except.ok md →
      ∃ ld, up = Except.ok ld ∧ md.matchups.length = ld.boxes.length ∧
        md.total_matchups = md.matchups.length) := by
  refine ⟨fun e => rfl, ?_, ?_⟩
  · intro ld e h
    simp only [get_league_data]
    rw [h]
  · intro up md h
    cases up with
    | error e =>
      exact absurd h (by simp [get_league_data])
    | ok ld =>
      simp only [get_league_data] at h
      cases hrec : processBoxes 0 ld.boxes with
      | error e =>
        rw [hrec] at h
        cases h
      | ok ms =>
        rw [hrec] at h
        injection h with h
        subst h
        exact ⟨ld, rfl, processBoxes_ok_length ld.boxes 0 ms hrec, rfl⟩

/-- Witness for C6: a league whose single box score raises mid-loop yields
the 500 response with the expected detail string. -/
theorem league_data_error_responses_witness :
    processBoxes 0 bad_league.boxes = Except.error "boom" ∧
    get_league_data (Except.ok bad_league) =
      Except.error (500, "Error fetching league data: " ++ "boom") :=
  ⟨rfl, league_data_error_responses.2.1 bad_league "boom" rfl⟩

/-! ## Display state machine -/

/-- C4 counterexample: with exactly 2 cached matchups the display cycle has
length 3 (`M0 → M1 → SUMMARY → M0`), so after 3 dwell-expiry transitions from
`SHOWING_MATCHUP(0)` the machine is back at `SHOWING_MATCHUP(0)` — not at
`SHOWING_SUMMARY` as claimed — and after 4 transitions it shows matchup 1,
not matchup 0. -/
theorem two_matchup_cycle_counterexample :
    stateAfter 2 3 = DispState.showingMatchup 0 ∧
    stateAfter 2 3 ≠ DispState.showingSummary ∧
    stateAfter 2 4 ≠ DispState.showingMatchup 0 := by decide

/-- C4 (amended): with 2 matchups, starting at `SHOWING_MATCHUP(0)`, after 2
dwell-expiry transitions the state is `SHOWING_SUMMARY` and after 3 it is
back at `SHOWING_MATCHUP(0)`; that third transition — the one leaving the
summary state — is the only point in the cycle where the refresh-eligibility
check is performed. -/
theorem two_matchup_cycle :
    stateAfter 2 0 = DispState.showingMatchup 0 ∧
    stateAfter 2 1 = DispState.showingMatchup 1 ∧
    stateAfter 2 2 = DispState.showingSummary ∧
    stateAfter 2 3 = DispState.showingMatchup 0 ∧
    refreshCheckAtTransition 2 3 = true ∧
    refreshCheckAtTransition 2 1 = false ∧
    refreshCheckAtTransition 2 2 = false := by decide

/-! ## Client fetch failures and the cache -/

/-- C5 counterexample: a 200 response whose body carries a `matchups` list
but no `week` key makes `fetch_matchups` replace the cached matchups (and
`projected_median`) and then fail — the success log line's `data["week"]`
lookup raises only after the assignments — so this failing call does not
leave the cache as it was. -/
theorem fetch_failure_can_mutate_cache :
    (fetch_matchups ⟨[mA], 0, 7, 3⟩
      (some ⟨200, some ⟨some [mB], none, some 9⟩⟩)).2 = false ∧
    (fetch_matchups ⟨[mA], 0, 7, 3⟩
      (some ⟨200, some ⟨some [mB], none, some 9⟩⟩)).1.matchups ≠ [mA] ∧
    (fetch_matchups ⟨[mA], 0, 7, 3⟩
      (some ⟨200, some ⟨some [mB], none, some 9⟩⟩)).1.projected_median ≠ 3 := by
  have hfetch : fetch_matchups ⟨[mA], 0, 7, 3⟩
      (some ⟨200, some ⟨some [mB], none, some 9⟩⟩) = (⟨[mB], 0, 7, 9⟩, false) := rfl
  refine ⟨by rw [hfetch], ?_, ?_⟩
  · rw [hfetch]
    show [mB] ≠ [mA]
    simp [mA, mB]
  · rw [hfetch]
    show (9 : ℚ) ≠ 3
    norm_num

/-- C5 (amended): a failing `fetch_matchups` call never touches
`last_api_call` or the cycling index, and — except for the one shape where a
200 body contains `matchups` but lacks `week`, in which case the matchups and
`projected_median` have already been replaced when the failure is reported —
it leaves the whole cached state exactly as it was. -/
theorem fetch_failure_preserves_cache (s : ClientState) (resp : Option Response)
    (hfail : (fetch_matchups s resp).2 = false) :
    (fetch_matchups s resp).1.last_api_call = s.last_api_call ∧
    (fetch_matchups s resp).1.current_matchup_index = s.current_matchup_index ∧
    (week_missing_shape resp = false → (fetch_matchups s resp).1 = s) := by
  rcases resp with _ | ⟨status, body⟩
  · exact ⟨rfl, rfl, fun _ => rfl⟩
  · by_cases h : status = 200
    · subst h
      rcases body with _ | ⟨m, w, p⟩
      · exact ⟨rfl, rfl, fun _ => rfl⟩
      · rcases m with _ | ms
        · exact ⟨rfl, rfl, fun _ => rfl⟩
        · rcases w with _ | wk
          · refine ⟨rfl, rfl, fun hws => ?_⟩
            simp [week_missing_shape] at hws
          · exact absurd hfail (by simp [fetch_matchups])
    · refine ⟨?_, ?_, fun _ => ?_⟩ <;> simp [fetch_matchups, h]

/-- Witness for C5's amended theorem: a plain network failure leaves the
state untouched. -/
theorem fetch_failure_preserves_cache_witness :
    (fetch_matchups ⟨[mA], 0, 7, 3⟩ none).2 = false ∧
    ((fetch_matchups ⟨[mA], 0, 7, 3⟩ none).1.last_api_call =
        (⟨[mA], 0, 7, 3⟩ : ClientState).last_api_call ∧
      (fetch_matchups ⟨[mA], 0, 7, 3⟩ none).1.current_matchup_index =
        (⟨[mA], 0, 7, 3⟩ : ClientState).current_matchup_index ∧
      (week_missing_shape none = false →
        (fetch_matchups ⟨[mA], 0, 7, 3⟩ none).1 = ⟨[mA], 0, 7, 3⟩)) :=
  ⟨rfl, fetch_failure_preserves_cache ⟨[mA], 0, 7, 3⟩ none rfl⟩

/-! ## Probability bar geometry -/

/-- C7 counterexample: at home win probability 0.51 the code draws the split
32 pixels from the left — `int((round(51)/100)*64) = int(32.64) = 32` — while
`round(0.51 * 64) = round(32.64) = 33`, so the split point is not
`round(home_win_probability * bar_width)`. -/
theorem bar_split_truncates_not_rounds :
    (matchup_bar_layout m51).home_width = 32 ∧
    roundHalfEven (m51.home_win_probability * 64) = 33 ∧
    (matchup_bar_layout m51).home_width ≠ roundHalfEven (m51.home_win_probability * 64) := by
  have hprob : m51.home_win_probability = 51 / 100 := rfl
  have hpercent : roundHalfEven (m51.home_win_probability * 100) = (51 : ℤ) := by
    rw [hprob, show ((51 : ℚ) / 100) * 100 = ((51 : ℤ) : ℚ) by norm_num, roundHalfEven_intCast]
  have h32 : (matchup_bar_layout m51).home_width = 32 := by
    show pyInt ((roundHalfEven (m51.home_win_probability * 100) : ℚ) / 100 * 64) = 32
    rw [hpercent]
    unfold pyInt
    rw [if_pos (by norm_num)]
    norm_num
  have h33 : roundHalfEven (m51.home_win_probability * 64) = 33 := by
    rw [hprob]
    refine roundHalfEven_eq_of_between ?_ ?_ <;> norm_num
  exact ⟨h32, h33, by rw [h32, h33]; decide⟩

/-- C7 (amended): the bar is drawn as a home segment starting at the left
edge followed immediately by the away segment, the two widths summing to
`bar_width = 64`; the split point is `int((round(p * 100) / 100) * 64)`
pixels from the left — the probability is first rounded to a whole percent
and the pixel count is then truncated, not rounded — and for `p` in [0, 1]
the split stays within the bar. -/
theorem bar_layout_amended (m : ClientMatchup)
    (h0 : 0 ≤ m.home_win_probability) (h1 : m.home_win_probability ≤ 1) :
    (matchup_bar_layout m).home_x = 0 ∧
    (matchup_bar_layout m).away_x = (matchup_bar_layout m).home_width ∧
    (matchup_bar_layout m).home_width + (matchup_bar_layout m).away_width = 64 ∧
    (matchup_bar_layout m).home_width =
      pyInt ((roundHalfEven (m.home_win_probability * 100) : ℚ) / 100 * 64) ∧
    0 ≤ (matchup_bar_layout m).home_width ∧
    (matchup_bar_layout m).home_width ≤ 64 := by
  have hr0 : (0 : ℤ) ≤ roundHalfEven (m.home_win_probability * 100) :=
    roundHalfEven_nonneg (by positivity)
  have hr100 : roundHalfEven (m.home_win_probability * 100) ≤ (100 : ℤ) :=
    roundHalfEven_le_intCast (by push_cast; nlinarith)
  have hr0q : (0 : ℚ) ≤ (roundHalfEven (m.home_win_probability * 100) : ℚ) := by
    exact_mod_cast hr0
  have hr100q : (roundHalfEven (m.home_win_probability * 100) : ℚ) ≤ 100 := by
    exact_mod_cast hr100
  have hx0 : (0 : ℚ) ≤ (roundHalfEven (m.home_win_probability * 100) : ℚ) / 100 * 64 := by
    positivity
  have hx64 : (roundHalfEven (m.home_win_probability * 100) : ℚ) / 100 * 64 ≤ 64 := by
    nlinarith
  refine ⟨rfl, rfl, by simp only [matchup_bar_layout]; omega, rfl, ?_, ?_⟩
  · show (0 : ℤ) ≤ pyInt ((roundHalfEven (m.home_win_probability * 100) : ℚ) / 100 * 64)
    unfold pyInt
    rw [if_pos hx0]
    exact Int.floor_nonneg.2 hx0
  · show pyInt ((roundHalfEven (m.home_win_probability * 100) : ℚ) / 100 * 64) ≤ 64
    unfold pyInt
    rw [if_pos hx0]
    have hfl : (⌊(roundHalfEven (m.home_win_probability * 100) : ℚ) / 100 * 64⌋ : ℚ) ≤ 64 :=
      le_trans (Int.floor_le _) hx64
    exact_mod_cast hfl

/-- Witness for C7's amended theorem at the 0.51-probability matchup. -/
theorem bar_layout_amended_witness :
    (0 : ℚ) ≤ m51.home_win_probability ∧ m51.home_win_probability ≤ 1 ∧
    ((matchup_bar_layout m51).home_x = 0 ∧
      (matchup_bar_layout m51).away_x = (matchup_bar_layout m51).home_width ∧
      (matchup_bar_layout m51).home_width + (matchup_bar_layout m51).away_width = 64 ∧
      (matchup_bar_layout m51).home_width =
        pyInt ((roundHalfEven (m51.home_win_probability * 100) : ℚ) / 100 * 64) ∧
      0 ≤ (matchup_bar_layout m51).home_width ∧
      (matchup_bar_layout m51).home_width ≤ 64) :=
  ⟨by norm_num [m51], by norm_num [m51],
    bar_layout_amended m51 (by norm_num [m51]) (by norm_num [m51])⟩

/-! ## Re-fetch scheduling -/

theorem fetch_matchups_preserves_index (s : ClientState) (resp : Option Response) :
    (fetch_matchups s resp).1.current_matchup_index = s.current_matchup_index := by
  rcases resp with _ | ⟨status, body⟩
  · rfl
  · by_cases h : status = 200
    · subst h
      rcases body with _ | ⟨m, w, p⟩
      · rfl
      · rcases m with _ | ms
        · rfl
        · rcases w with _ | wk
          · rfl
          · rfl
    · simp [fetch_matchups, h]

/-- The index evolution of a `run` iteration on a non-empty cache is exactly
the `stepIndex` transition of the abstract display state machine. -/
theorem runStep_index_matches (s : ClientState) (now : ℚ) (resp : Option Response)
    (h : s.matchups ≠ []) :
    (runStep s now resp).1.current_matchup_index =
      stepIndex s.matchups.length s.current_matchup_index := by
  have he : s.matchups.isEmpty = false := by
    simp [List.isEmpty_iff, h]
  unfold runStep stepIndex
  rw [he]
  simp only [Bool.false_eq_true, if_false]
  by_cases hge : s.matchups.length ≤ s.current_matchup_index
  · rw [if_pos hge, if_pos hge]
    by_cases ht : REFRESH_INTERVAL < now - s.last_api_call
    · rw [if_pos ht]
      cases hf : fetch_matchups { s with current_matchup_index := 0 } resp with
      | mk s2 ok =>
        have hidx : s2.current_matchup_index = 0 := by
          have h2 := fetch_matchups_preserves_index
            { s with current_matchup_index := 0 } resp
          rw [hf] at h2
          exact h2
        cases ok
        · exact hidx
        · exact hidx
    · rw [if_neg ht]
  · rw [if_neg hge, if_neg hge]

/-- C8 (amended): whenever a loop iteration issues a re-fetch, the cache is
non-empty, the iteration is the summary-to-matchup(0) cycle boundary (the
index had run past the end and is reset to 0), and strictly more than
`REFRESH_INTERVAL` seconds of monotonic time have passed since the recorded
`last_api_call` timestamp — which starts at 0, is never written by the
startup fetch, and is set to the check's own timestamp when an in-loop
re-fetch succeeds. -/
theorem refetch_only_at_cycle_boundary (s : ClientState) (now : ℚ) (resp : Option Response)
    (hissued : (runStep s now resp).2.1 = true) :
    s.matchups ≠ [] ∧
    s.matchups.length ≤ s.current_matchup_index ∧
    (runStep s now resp).1.current_matchup_index = 0 ∧
    REFRESH_INTERVAL < now - s.last_api_call := by
  unfold runStep at hissued ⊢
  by_cases he : s.matchups.isEmpty
  · rw [if_pos he] at hissued
    exact absurd hissued (by simp)
  · rw [if_neg he] at hissued ⊢
    have hne : s.matchups ≠ [] := by
      intro hnil
      exact he (by simp [hnil])
    by_cases hge : s.matchups.length ≤ s.current_matchup_index
    · rw [if_pos hge] at hissued ⊢
      by_cases ht : REFRESH_INTERVAL < now - s.last_api_call
      · rw [if_pos ht] at hissued ⊢
        refine ⟨hne, hge, ?_, ht⟩
        cases hf : fetch_matchups { s with current_matchup_index := 0 } resp with
        | mk s2 ok =>
          have hidx : s2.current_matchup_index = 0 := by
            have h2 := fetch_matchups_preserves_index
              { s with current_matchup_index := 0 } resp
            rw [hf] at h2
            exact h2
          cases ok
          · exact hidx
          · exact hidx
      · rw [if_neg ht] at hissued
        exact absurd hissued (by simp)
    · rw [if_neg hge] at hissued
      exact absurd hissued (by simp)

/-- Witness for C8's amended theorem: a summary iteration at time 100 with
`last_api_call = 0` issues a fetch (which here fails), and the necessary
conditions hold. -/
theorem refetch_only_at_cycle_boundary_witness :
    (runStep ⟨[mA], 5, 0, 0⟩ 100 none).2.1 = true ∧
    (([mA] : List ClientMatchup) ≠ [] ∧
      ([mA] : List ClientMatchup).length ≤ 5 ∧
      (runStep ⟨[mA], 5, 0, 0⟩ 100 none).1.current_matchup_index = 0 ∧
      REFRESH_INTERVAL < (100 : ℚ) - 0) := by
  have hissued : (runStep (⟨[mA], 5, 0, 0⟩ : ClientState) 100 none).2.1 = true := by
    norm_num [runStep, fetch_matchups, REFRESH_INTERVAL]
  exact ⟨hissued, refetch_only_at_cycle_boundary ⟨[mA], 5, 0, 0⟩ 100 none hissued⟩

/-- C8 counterexample: a run whose startup fetch succeeds at monotonic time
20 (the code never records that time — `last_api_call` stays 0) reaches its
first summary iteration at time 35 and issues a re-fetch, even though the
most recent successful fetch — tracked by the ghost second component of
`runStepT`, initialised to the startup fetch's time — happened only 15
seconds earlier, less than `REFRESH_INTERVAL`. -/
theorem refetch_before_interval_counterexample :
    (fetch_matchups init_client (some agg_resp)).2 = true ∧
    (runStepT ((fetch_matchups init_client (some agg_resp)).1, 20) 25 none).2 = false ∧
    (runStepT (runStepT ((fetch_matchups init_client (some agg_resp)).1, 20) 25 none).1
      35 none).2 = true ∧
    35 - (runStepT ((fetch_matchups init_client (some agg_resp)).1, 20) 25 none).1.2 <
      REFRESH_INTERVAL := by
  have hs0 : fetch_matchups init_client (some agg_resp) = (⟨[mA], 0, 0, 0⟩, true) := rfl
  refine ⟨by rw [hs0], by rw [hs0]; rfl, ?_, ?_⟩
  · rw [hs0]
    have h2run : runStep (⟨[mA], 1, 0, 0⟩ : ClientState) 35 none =
        (⟨[mA], 0, 0, 0⟩, true, false) := by
      norm_num [runStep, fetch_matchups, REFRESH_INTERVAL]
    show (runStepT ((⟨[mA], 1, 0, 0⟩ : ClientState), (20 : ℚ)) 35 none).2 = true
    unfold runStepT
    rw [h2run]
  · rw [hs0]
    show (35 : ℚ) - 20 < REFRESH_INTERVAL
    norm_num [REFRESH_INTERVAL]

/-! ## Summary-screen medians -/

/-- The code's median formula agrees with the specification's description of
the median on every score list: the Python indices `n // 2` (odd) and
`n // 2 - 1`, `n // 2` (even) are precisely the middle positions. -/
theorem median_of_scores_eq_spec_median (scores : List ℚ) :
    median_of_scores scores = spec_median scores := by
  simp only [median_of_scores, spec_median]
  by_cases hpar : (List.insertionSort (· ≤ ·) scores).length % 2 = 1
  · rw [if_pos hpar, if_pos hpar]
    have h : (List.insertionSort (· ≤ ·) scores).length / 2 =
        ((List.insertionSort (· ≤ ·) scores).length - 1) / 2 := by omega
    rw [h]
  · rw [if_neg hpar, if_neg hpar]
    have h : (List.insertionSort (· ≤ ·) scores).length / 2 - 1 =
        ((List.insertionSort (· ≤ ·) scores).length - 1) / 2 := by omega
    rw [h]

/-- C9: for every non-empty cached matchup list the summary screen's live
median — the code's formula applied to all teams' current scores — equals
the specification's median (after ascending sort: middle value for an odd
count, average of the two middle values for an even count); and the
specification's worked examples evaluate as stated. -/
theorem summary_median_matches_spec :
    (∀ ms : List ClientMatchup, ms ≠ [] →
      summary_live_median ms = spec_median (all_scores ms)) ∧
    median_of_scores [10, 20, 30] = 20 ∧
    median_of_scores [10, 20, 30, 40] = 25 := by
  refine ⟨fun ms _ => median_of_scores_eq_spec_median (all_scores ms), rfl, ?_⟩
  have hsort : List.insertionSort (· ≤ ·) ([10, 20, 30, 40] : List ℚ) =
      [10, 20, 30, 40] := rfl
  simp only [median_of_scores, hsort]
  norm_num

/-- Witness for C9 at a one-matchup cache. -/
theorem summary_median_matches_spec_witness :
    ([mA] : List ClientMatchup) ≠ [] ∧
    summary_live_median [mA] = spec_median (all_scores [mA]) :=
  ⟨by simp, summary_median_matches_spec.1 [mA] (by simp)⟩

/-! ## Missing projected_median on the wire -/

/-- C10: a fetch of any serialized aggregator response — whose `MatrixData`
model carries no `projected_median` field — succeeds and leaves the client's
`projected_median` at the `data.get("projected_median", 0.0)` default of 0,
which is exactly the value the summary screen then renders as PROJ. -/
theorem aggregator_fetch_defaults_projected_median (s : ClientState)
    (ms : List ClientMatchup) (wk : ℤ) :
    (fetch_matchups s (some ⟨200, some (aggregator_body ms wk)⟩)).2 = true ∧
    (fetch_matchups s (some ⟨200, some (aggregator_body ms wk)⟩)).1.projected_median = 0 ∧
    summary_proj_value (fetch_matchups s (some ⟨200, some (aggregator_body ms wk)⟩)).1 = 0 :=
  ⟨rfl, rfl, rfl⟩

/-- Witness for C10 at a concrete state and response. -/
theorem aggregator_fetch_defaults_projected_median_witness :
    (fetch_matchups init_client (some ⟨200, some (aggregator_body [mA] 5)⟩)).2 = true ∧
    (fetch_matchups init_client
      (some ⟨200, some (aggregator_body [mA] 5)⟩)).1.projected_median = 0 ∧
    summary_proj_value (fetch_matchups init_client
      (some ⟨200, some (aggregator_body [mA] 5)⟩)).1 = 0 :=
  aggregator_fetch_defaults_projected_median init_client [mA] 5

end FantasyMatrix
